import Mathlib

/-!
Verification of the folder-level synchronization orchestrator of the
xprotojson repository (source: src/app/api/v1/endpoints/data.py,
function sync_folder_sheets). The Python endpoint is embedded shallowly:
the two collaborators (drive_service.get_sheets_in_folder and
sync_service.sync_sheet) become explicit functions returning Except values,
Python exceptions become the inductive type Exn (FastAPI HTTPException
versus any other exception), and the imperative per-item loop becomes a
left fold over the file list, threading the two counters and the details
list exactly as the source does.
-/

/-- A spreadsheet file as returned by drive_service.get_sheets_in_folder:
the source reads sheet_file.token and sheet_file.name. -/
structure SpreadsheetFile where
  token : String
  name : String
  deriving Repr, DecidableEq

/-- The result dictionary returned by sync_service.sync_sheet: the source
reads the total_rows_written value and the length of the sheets sequence.
The per-sheet records are opaque to the orchestrator, so they are modelled
as strings. -/
structure SheetSyncResult where
  total_rows_written : Nat
  sheets : List String
  deriving Repr, DecidableEq

/-- A Python exception as seen by the handler: either a FastAPI
HTTPException (status code and detail) or any other exception, carrying
the message that str(e) would produce. -/
inductive Exn where
  | httpException (status : Nat) (detail : String)
  | other (msg : String)
  deriving Repr, DecidableEq

/-- The message str(e) yields for an exception, used by the source when it
records a per-item failure and when it wraps an escaping exception. -/
def Exn.str : Exn → String
  | .httpException _ d => d
  | .other m => m

/-- One entry of the details list built by the loop in sync_folder_sheets:
the source appends a dict with status success (carrying file_name,
file_token, rows_written, sheets_count) or status failed (carrying
file_name, file_token, error). -/
inductive SyncItemOutcome where
  | success (file_name : String) (file_token : String)
      (rows_written : Nat) (sheets_count : Nat)
  | failure (file_name : String) (file_token : String) (error : String)
  deriving Repr, DecidableEq

/-- True on a success entry. -/
def SyncItemOutcome.isSuccess : SyncItemOutcome → Bool
  | .success _ _ _ _ => true
  | .failure _ _ _ => false

/-- True on a failed entry. -/
def SyncItemOutcome.isFailure : SyncItemOutcome → Bool
  | .success _ _ _ _ => false
  | .failure _ _ _ => true

/-- The FolderSyncResponse model of the source: success, message,
folder_token, total_sheets, synced_sheets, failed_sheets, details. -/
structure FolderSyncResponse where
  success : Bool
  message : String
  folder_token : String
  total_sheets : Nat
  synced_sheets : Nat
  failed_sheets : Nat
  details : List SyncItemOutcome
  deriving Repr, DecidableEq

/-- The two collaborators the endpoint calls, as injected dependencies:
drive_service.get_sheets_in_folder and sync_service.sync_sheet. Either
call may raise (modelled as returning an Except error). -/
structure Env where
  get_sheets_in_folder : String → Except Exn (List SpreadsheetFile)
  sync_sheet : String → Except Exn SheetSyncResult

/-- True when an Except value is ok. -/
def exceptOk {ε α : Type} : Except ε α → Bool
  | .ok _ => true
  | .error _ => false

/-- The outcome the loop body records for one file: on success it appends
the success dict with the file name, file token, the total_rows_written
value of the result and the length of the sheets list; on any exception it
appends the failed dict with the file name, file token and str(e). -/
def syncItem (sync : String → Except Exn SheetSyncResult)
    (sheet_file : SpreadsheetFile) : SyncItemOutcome :=
  match sync sheet_file.token with
  | .ok result =>
      .success sheet_file.name sheet_file.token
        result.total_rows_written result.sheets.length
  | .error e => .failure sheet_file.name sheet_file.token e.str

/-- One iteration of the per-item loop of sync_folder_sheets: the inner
try/except increments synced_sheets and appends the success entry, or
catches any exception, increments failed_sheets and appends the failed
entry. The accumulator is (synced_sheets, failed_sheets, details). -/
def syncStep (sync : String → Except Exn SheetSyncResult)
    (acc : Nat × Nat × List SyncItemOutcome) (sheet_file : SpreadsheetFile) :
    Nat × Nat × List SyncItemOutcome :=
  match sync sheet_file.token with
  | .ok result =>
      (acc.1 + 1, acc.2.1,
        acc.2.2 ++ [SyncItemOutcome.success sheet_file.name sheet_file.token
          result.total_rows_written result.sheets.length])
  | .error e =>
      (acc.1, acc.2.1 + 1,
        acc.2.2 ++ [SyncItemOutcome.failure sheet_file.name sheet_file.token
          e.str])

/-- The whole per-item loop of sync_folder_sheets, starting from
synced_sheets = 0, failed_sheets = 0, details = []. -/
def syncFiles (sync : String → Except Exn SheetSyncResult)
    (sheet_files : List SpreadsheetFile) : Nat × Nat × List SyncItemOutcome :=
  sheet_files.foldl (syncStep sync) (0, 0, [])

/-- Base text of the message built in the source. -/
def msgHead : String := "同步完成: "

/-- The separator between the synced and total counts in the message. -/
def msgSlash : String := "/"

/-- The suffix after the counts in the base message. -/
def msgOk : String := " 成功"

/-- The separator before the failed clause of the message. -/
def msgComma : String := ", "

/-- The suffix of the failed clause of the message. -/
def msgFail : String := " 失败"

/-- The detail text the outer handler prepends when it wraps a non-HTTP
exception into an HTTP 500 failure. -/
def folderSyncFailMsg : String := "文件夹同步失败: "

/-- The outer except handlers of sync_folder_sheets: an HTTPException is
re-raised unchanged; any other exception is wrapped into an
HTTPException with status 500 and the wrapped detail text. -/
def wrapOuter : Exn → Exn
  | .httpException s d => .httpException s d
  | .other m => .httpException 500 (folderSyncFailMsg ++ m)

/-- The report sync_folder_sheets builds once the file list is known:
total_sheets is the length of the list, the loop produces the counters and
details, success is failed_sheets == 0, and the message reports
synced/total with a failed clause appended when failed_sheets > 0. -/
def mkReport (sync : String → Except Exn SheetSyncResult)
    (folder_token : String) (sheet_files : List SpreadsheetFile) :
    FolderSyncResponse :=
  let total_sheets := sheet_files.length
  let acc := syncFiles sync sheet_files
  let synced_sheets := acc.1
  let failed_sheets := acc.2.1
  let details := acc.2.2
  let success := failed_sheets == 0
  let message :=
    msgHead ++ toString synced_sheets ++ msgSlash ++ toString total_sheets
      ++ msgOk ++
      (if failed_sheets > 0 then msgComma ++ toString failed_sheets ++ msgFail
       else ("" : String))
  { success := success, message := message, folder_token := folder_token,
    total_sheets := total_sheets, synced_sheets := synced_sheets,
    failed_sheets := failed_sheets, details := details }

/-- The endpoint sync_folder_sheets: list the sheets in the folder (a
failure here reaches the outer handlers directly), then run the per-item
loop and return the aggregate report. -/
def sync_folder_sheets (env : Env) (folder_token : String) :
    Except Exn FolderSyncResponse :=
  match env.get_sheets_in_folder folder_token with
  | .error e => .error (wrapOuter e)
  | .ok sheet_files => .ok (mkReport env.sync_sheet folder_token sheet_files)

/-- Number of files of the list whose sync call succeeds. -/
def countSynced (sync : String → Except Exn SheetSyncResult)
    (sheet_files : List SpreadsheetFile) : Nat :=
  sheet_files.countP (fun f => exceptOk (sync f.token))

/-- Number of files of the list whose sync call fails. -/
def countFailed (sync : String → Except Exn SheetSyncResult)
    (sheet_files : List SpreadsheetFile) : Nat :=
  sheet_files.countP (fun f => !(exceptOk (sync f.token)))

theorem syncFiles_foldl (sync : String → Except Exn SheetSyncResult)
    (fs : List SpreadsheetFile) : ∀ s f : Nat, ∀ ds : List SyncItemOutcome,
    List.foldl (syncStep sync) (s, f, ds) fs =
      (s + countSynced sync fs, f + countFailed sync fs,
        ds ++ fs.map (syncItem sync)) := by
  induction fs with
  | nil => intro s f ds; simp [countSynced, countFailed]
  | cons x xs ih =>
    intro s f ds
    cases hx : sync x.token with
    | ok r =>
      simp only [List.foldl_cons, syncStep, hx, ih, countSynced, countFailed,
        List.countP_cons, List.map_cons, syncItem, exceptOk, Prod.mk.injEq]
      refine ⟨by simp; omega, by simp, by simp⟩
    | error e =>
      simp only [List.foldl_cons, syncStep, hx, ih, countSynced, countFailed,
        List.countP_cons, List.map_cons, syncItem, exceptOk, Prod.mk.injEq]
      refine ⟨by simp, by simp; omega, by simp⟩

theorem syncFiles_spec (sync : String → Except Exn SheetSyncResult)
    (fs : List SpreadsheetFile) :
    syncFiles sync fs =
      (countSynced sync fs, countFailed sync fs, fs.map (syncItem sync)) := by
  simpa using syncFiles_foldl sync fs 0 0 []

theorem countSynced_add_countFailed (sync : String → Except Exn SheetSyncResult)
    (fs : List SpreadsheetFile) :
    countSynced sync fs + countFailed sync fs = fs.length := by
  have h := List.length_eq_countP_add_countP
    (fun f => exceptOk (sync f.token)) fs
  simp only [countSynced, countFailed]
  simpa using h.symm

theorem mkReport_total_sheets (sync : String → Except Exn SheetSyncResult)
    (ft : String) (fs : List SpreadsheetFile) :
    (mkReport sync ft fs).total_sheets = fs.length := rfl

theorem mkReport_folder_token (sync : String → Except Exn SheetSyncResult)
    (ft : String) (fs : List SpreadsheetFile) :
    (mkReport sync ft fs).folder_token = ft := rfl

theorem mkReport_synced_sheets (sync : String → Except Exn SheetSyncResult)
    (ft : String) (fs : List SpreadsheetFile) :
    (mkReport sync ft fs).synced_sheets = countSynced sync fs := by
  simp [mkReport, syncFiles_spec]

theorem mkReport_failed_sheets (sync : String → Except Exn SheetSyncResult)
    (ft : String) (fs : List SpreadsheetFile) :
    (mkReport sync ft fs).failed_sheets = countFailed sync fs := by
  simp [mkReport, syncFiles_spec]

theorem mkReport_details_eq (sync : String → Except Exn SheetSyncResult)
    (ft : String) (fs : List SpreadsheetFile) :
    (mkReport sync ft fs).details = fs.map (syncItem sync) := by
  simp [mkReport, syncFiles_spec]

theorem mkReport_success_eq (sync : String → Except Exn SheetSyncResult)
    (ft : String) (fs : List SpreadsheetFile) :
    (mkReport sync ft fs).success =
      ((mkReport sync ft fs).failed_sheets == 0) := rfl

theorem mkReport_message_eq (sync : String → Except Exn SheetSyncResult)
    (ft : String) (fs : List SpreadsheetFile) :
    (mkReport sync ft fs).message =
      msgHead ++ toString (mkReport sync ft fs).synced_sheets ++ msgSlash ++
        toString (mkReport sync ft fs).total_sheets ++ msgOk ++
        (if (mkReport sync ft fs).failed_sheets > 0 then
          msgComma ++ toString (mkReport sync ft fs).failed_sheets ++ msgFail
         else ("" : String)) := rfl

theorem sync_folder_sheets_ok (env : Env) (t : String)
    (fs : List SpreadsheetFile)
    (hls : env.get_sheets_in_folder t = Except.ok fs) :
    sync_folder_sheets env t = Except.ok (mkReport env.sync_sheet t fs) := by
  simp [sync_folder_sheets, hls]

theorem sync_folder_sheets_ok_inv (env : Env) (t : String)
    (r : FolderSyncResponse)
    (hr : sync_folder_sheets env t = Except.ok r) :
    ∃ fs, env.get_sheets_in_folder t = Except.ok fs ∧
      r = mkReport env.sync_sheet t fs := by
  cases h : env.get_sheets_in_folder t with
  | ok fs =>
    refine ⟨fs, rfl, ?_⟩
    simp only [sync_folder_sheets, h, Except.ok.injEq] at hr
    exact hr.symm
  | error e => simp [sync_folder_sheets, h] at hr

theorem syncItem_isFailure_eq (sync : String → Except Exn SheetSyncResult)
    (f : SpreadsheetFile) :
    (syncItem sync f).isFailure = !(exceptOk (sync f.token)) := by
  cases h : sync f.token <;>
    simp [syncItem, h, SyncItemOutcome.isFailure, exceptOk]

theorem syncItem_isSuccess_eq (sync : String → Except Exn SheetSyncResult)
    (f : SpreadsheetFile) :
    (syncItem sync f).isSuccess = exceptOk (sync f.token) := by
  cases h : sync f.token <;>
    simp [syncItem, h, SyncItemOutcome.isSuccess, exceptOk]

/-! Concrete scenario from the spec: folder F1 holds sheets A, B and C;
syncing A and C succeeds with 10 and 5 rows written, syncing B fails with
a rate-limited error. Used as witness data below. -/

/-- Token of file A. -/
def tokA : String := "shtA"

/-- Token of file B. -/
def tokB : String := "shtB"

/-- Token of file C. -/
def tokC : String := "shtC"

/-- Display name of file A. -/
def nameA : String := "A"

/-- Display name of file B. -/
def nameB : String := "B"

/-- Display name of file C. -/
def nameC : String := "C"

/-- A per-sheet record name used in the demo results. -/
def sheetTab : String := "tab1"

/-- The error message of the failing demo sync call. -/
def rateLimited : String := "rate limited"

/-- The demo folder token. -/
def folderF1 : String := "F1"

/-- The error message of the failing demo folder listing. -/
def notFoundMsg : String := "folder not found"

/-- Demo file A. -/
def fileA : SpreadsheetFile := { token := tokA, name := nameA }

/-- Demo file B. -/
def fileB : SpreadsheetFile := { token := tokB, name := nameB }

/-- Demo file C. -/
def fileC : SpreadsheetFile := { token := tokC, name := nameC }

/-- The demo folder listing. -/
def demoFiles : List SpreadsheetFile := [fileA, fileB, fileC]

/-- Result of syncing file A. -/
def resA : SheetSyncResult := { total_rows_written := 10, sheets := [sheetTab] }

/-- Result of syncing file C. -/
def resC : SheetSyncResult := { total_rows_written := 5, sheets := [sheetTab] }

/-- The demo per-sheet sync behaviour: B fails, A and C succeed. -/
def demoSync : String → Except Exn SheetSyncResult := fun tk =>
  if tk == tokB then Except.error (Exn.other rateLimited)
  else if tk == tokA then Except.ok resA
  else Except.ok resC

/-- Demo environment whose folder listing returns A, B, C. -/
def demoEnv : Env :=
  { get_sheets_in_folder := fun _ => Except.ok demoFiles,
    sync_sheet := demoSync }

/-- The report of the demo run. -/
def demoReport : FolderSyncResponse := mkReport demoSync folderF1 demoFiles

/-- Demo environment whose folder listing returns the empty list. -/
def emptyEnv : Env :=
  { get_sheets_in_folder := fun _ => Except.ok [],
    sync_sheet := demoSync }

/-- Demo environment whose folder listing raises a plain exception. -/
def failEnv : Env :=
  { get_sheets_in_folder := fun _ => Except.error (Exn.other notFoundMsg),
    sync_sheet := demoSync }

/-- Demo environment whose folder listing raises an HTTPException. -/
def httpFailEnv : Env :=
  { get_sheets_in_folder := fun _ => Except.error (Exn.httpException 404 notFoundMsg),
    sync_sheet := demoSync }

/-- C1: whenever the folder listing succeeds with a file list and
sync_folder_sheets returns a report, the report satisfies
total_sheets = synced_sheets + failed_sheets = length of details, and
total_sheets is the length of the file list the listing returned. -/
theorem C1_folder_report_invariant (env : Env) (t : String)
    (fs : List SpreadsheetFile) (r : FolderSyncResponse)
    (hls : env.get_sheets_in_folder t = Except.ok fs)
    (hr : sync_folder_sheets env t = Except.ok r) :
    r.total_sheets = r.synced_sheets + r.failed_sheets ∧
    r.synced_sheets + r.failed_sheets = r.details.length ∧
    r.total_sheets = fs.length := by
  rw [sync_folder_sheets_ok env t fs hls, Except.ok.injEq] at hr
  subst hr
  refine ⟨?_, ?_, mkReport_total_sheets env.sync_sheet t fs⟩
  · rw [mkReport_total_sheets, mkReport_synced_sheets, mkReport_failed_sheets,
      countSynced_add_countFailed]
  · rw [mkReport_synced_sheets, mkReport_failed_sheets, mkReport_details_eq,
      List.length_map, countSynced_add_countFailed]

/-- Witness for C1 on the demo scenario. -/
theorem C1_witness :
    demoReport.total_sheets = demoReport.synced_sheets + demoReport.failed_sheets ∧
    demoReport.synced_sheets + demoReport.failed_sheets = demoReport.details.length ∧
    demoReport.total_sheets = demoFiles.length :=
  C1_folder_report_invariant demoEnv folderF1 demoFiles demoReport rfl rfl

/-- C2: whenever sync_folder_sheets returns a report, its success flag is
true exactly when failed_sheets is zero. -/
theorem C2_success_iff_failed_zero (env : Env) (t : String)
    (r : FolderSyncResponse)
    (hr : sync_folder_sheets env t = Except.ok r) :
    r.success = true ↔ r.failed_sheets = 0 := by
  obtain ⟨fs, hls, rfl⟩ := sync_folder_sheets_ok_inv env t r hr
  rw [mkReport_success_eq]
  exact beq_iff_eq

/-- Witness for C2 on the demo scenario. -/
theorem C2_witness : demoReport.success = true ↔ demoReport.failed_sheets = 0 :=
  C2_success_iff_failed_zero demoEnv folderF1 demoReport rfl

/-- C3: when the folder listing succeeds, sync_folder_sheets always returns
a report (no per-item failure escalates), the details list has exactly the
per-file outcome of every listed file in listing order, and every file
whose sync call fails contributes a Failure entry carrying its name, its
token and the stringified error message. -/
theorem C3_per_item_failure_contained (env : Env) (t : String)
    (fs : List SpreadsheetFile)
    (hls : env.get_sheets_in_folder t = Except.ok fs) :
    ∃ r, sync_folder_sheets env t = Except.ok r ∧
      r.details = fs.map (syncItem env.sync_sheet) ∧
      ∀ f ∈ fs, ∀ e, env.sync_sheet f.token = Except.error e →
        SyncItemOutcome.failure f.name f.token e.str ∈ r.details := by
  refine ⟨mkReport env.sync_sheet t fs, sync_folder_sheets_ok env t fs hls,
    mkReport_details_eq env.sync_sheet t fs, ?_⟩
  intro f hf e he
  rw [mkReport_details_eq]
  exact List.mem_map.mpr ⟨f, hf, by simp [syncItem, he]⟩

/-- Witness for C3 on the demo scenario. -/
theorem C3_witness :
    ∃ r, sync_folder_sheets demoEnv folderF1 = Except.ok r ∧
      r.details = demoFiles.map (syncItem demoEnv.sync_sheet) ∧
      ∀ f ∈ demoFiles, ∀ e, demoEnv.sync_sheet f.token = Except.error e →
        SyncItemOutcome.failure f.name f.token e.str ∈ r.details :=
  C3_per_item_failure_contained demoEnv folderF1 demoFiles rfl

/-- C4: when the folder listing fails with any exception, the endpoint
returns no report at all: it propagates a single orchestration-level
failure, namely the listing exception routed through the outer handlers. -/
theorem C4_listing_failure_aborts (env : Env) (t : String) (e : Exn)
    (hls : env.get_sheets_in_folder t = Except.error e) :
    sync_folder_sheets env t = Except.error (wrapOuter e) := by
  simp [sync_folder_sheets, hls]

/-- Witness for C4 on the demo scenario. -/
theorem C4_witness :
    sync_folder_sheets failEnv folderF1 =
      Except.error (wrapOuter (Exn.other notFoundMsg)) :=
  C4_listing_failure_aborts failEnv folderF1 (Exn.other notFoundMsg) rfl

/-- C5: when the listing succeeds with N files and a report is returned,
details holds exactly one outcome per file, at the same index the file had
in the listing; and when exactly one file's sync call fails, details holds
exactly one Failure and N - 1 Success outcomes. -/
theorem C5_one_outcome_per_file (env : Env) (t : String)
    (fs : List SpreadsheetFile) (r : FolderSyncResponse)
    (hls : env.get_sheets_in_folder t = Except.ok fs)
    (hr : sync_folder_sheets env t = Except.ok r) :
    r.details.length = fs.length ∧
    (∀ i : Nat, r.details[i]? = (fs[i]?).map (syncItem env.sync_sheet)) ∧
    (countFailed env.sync_sheet fs = 1 →
      List.countP SyncItemOutcome.isFailure r.details = 1 ∧
      List.countP SyncItemOutcome.isSuccess r.details = fs.length - 1) := by
  rw [sync_folder_sheets_ok env t fs hls, Except.ok.injEq] at hr
  subst hr
  rw [mkReport_details_eq]
  have hF : List.countP SyncItemOutcome.isFailure
      (fs.map (syncItem env.sync_sheet)) = countFailed env.sync_sheet fs := by
    rw [List.countP_map]
    unfold countFailed
    exact List.countP_congr (fun f _ => by
      simp [Function.comp, syncItem_isFailure_eq])
  have hS : List.countP SyncItemOutcome.isSuccess
      (fs.map (syncItem env.sync_sheet)) = countSynced env.sync_sheet fs := by
    rw [List.countP_map]
    unfold countSynced
    exact List.countP_congr (fun f _ => by
      simp [Function.comp, syncItem_isSuccess_eq])
  have hsum := countSynced_add_countFailed env.sync_sheet fs
  refine ⟨by simp, fun i => List.getElem?_map _ fs i, fun h1 => ?_⟩
  rw [hF, hS]
  omega

/-- Witness for C5 on the demo scenario. -/
theorem C5_witness :
    demoReport.details.length = demoFiles.length ∧
    (∀ i : Nat, demoReport.details[i]? =
      (demoFiles[i]?).map (syncItem demoEnv.sync_sheet)) ∧
    (countFailed demoEnv.sync_sheet demoFiles = 1 →
      List.countP SyncItemOutcome.isFailure demoReport.details = 1 ∧
      List.countP SyncItemOutcome.isSuccess demoReport.details =
        demoFiles.length - 1) :=
  C5_one_outcome_per_file demoEnv folderF1 demoFiles demoReport rfl rfl

/-- C6: when the listing returns the empty list, the report has
total_sheets 0, synced_sheets 0, failed_sheets 0, success true and an
empty details list. -/
theorem C6_empty_folder (env : Env) (t : String)
    (hls : env.get_sheets_in_folder t = Except.ok []) :
    ∃ r, sync_folder_sheets env t = Except.ok r ∧ r.total_sheets = 0 ∧
      r.synced_sheets = 0 ∧ r.failed_sheets = 0 ∧ r.success = true ∧
      r.details = [] :=
  ⟨mkReport env.sync_sheet t [], sync_folder_sheets_ok env t [] hls,
    rfl, rfl, rfl, rfl, rfl⟩

/-- Witness for C6 on the empty demo folder. -/
theorem C6_witness :
    ∃ r, sync_folder_sheets emptyEnv folderF1 = Except.ok r ∧
      r.total_sheets = 0 ∧ r.synced_sheets = 0 ∧ r.failed_sheets = 0 ∧
      r.success = true ∧ r.details = [] :=
  C6_empty_folder emptyEnv folderF1 rfl

/-- C7: a file whose sync call succeeds contributes, at its own index, a
Success outcome recording the file name, the file token, the
total_rows_written value of the sync result and the length of the result's
sheets list. -/
theorem C7_success_outcome_fields (env : Env) (t : String)
    (fs : List SpreadsheetFile) (i : Nat) (f : SpreadsheetFile)
    (res : SheetSyncResult)
    (hls : env.get_sheets_in_folder t = Except.ok fs)
    (hf : fs[i]? = some f)
    (hs : env.sync_sheet f.token = Except.ok res) :
    ∃ r, sync_folder_sheets env t = Except.ok r ∧
      r.details[i]? = some (SyncItemOutcome.success f.name f.token
        res.total_rows_written res.sheets.length) := by
  refine ⟨mkReport env.sync_sheet t fs, sync_folder_sheets_ok env t fs hls, ?_⟩
  rw [mkReport_details_eq, List.getElem?_map _ fs i, hf]
  simp [syncItem, hs]

/-- Witness for C7 on the demo scenario, at file A. -/
theorem C7_witness :
    ∃ r, sync_folder_sheets demoEnv folderF1 = Except.ok r ∧
      r.details[0]? = some (SyncItemOutcome.success fileA.name fileA.token
        resA.total_rows_written resA.sheets.length) :=
  C7_success_outcome_fields demoEnv folderF1 demoFiles 0 fileA resA
    rfl rfl rfl

/-- C8: the message of every returned report is the base text holding the
synced count and the total count separated by a slash, followed by the
failed-count clause exactly when failed_sheets is positive. -/
theorem C8_message_reports_counts (env : Env) (t : String)
    (r : FolderSyncResponse)
    (hr : sync_folder_sheets env t = Except.ok r) :
    r.message = msgHead ++ toString r.synced_sheets ++ msgSlash ++
      toString r.total_sheets ++ msgOk ++
      (if r.failed_sheets > 0 then
        msgComma ++ toString r.failed_sheets ++ msgFail
       else ("" : String)) := by
  obtain ⟨fs, hls, rfl⟩ := sync_folder_sheets_ok_inv env t r hr
  exact mkReport_message_eq env.sync_sheet t fs

/-- Witness for C8 on the demo scenario. -/
theorem C8_witness :
    demoReport.message = msgHead ++ toString demoReport.synced_sheets ++
      msgSlash ++ toString demoReport.total_sheets ++ msgOk ++
      (if demoReport.failed_sheets > 0 then
        msgComma ++ toString demoReport.failed_sheets ++ msgFail
       else ("" : String)) :=
  C8_message_reports_counts demoEnv folderF1 demoReport rfl

/-- C9: two runs over the same file list whose per-item calls succeed and
fail on the same files produce reports with identical total_sheets,
synced_sheets, failed_sheets and success values. -/
theorem C9_stable_reaggregation (env1 env2 : Env) (t : String)
    (fs : List SpreadsheetFile) (r1 r2 : FolderSyncResponse)
    (h1 : env1.get_sheets_in_folder t = Except.ok fs)
    (h2 : env2.get_sheets_in_folder t = Except.ok fs)
    (hsame : ∀ f ∈ fs,
      exceptOk (env1.sync_sheet f.token) = exceptOk (env2.sync_sheet f.token))
    (hr1 : sync_folder_sheets env1 t = Except.ok r1)
    (hr2 : sync_folder_sheets env2 t = Except.ok r2) :
    r1.total_sheets = r2.total_sheets ∧
    r1.synced_sheets = r2.synced_sheets ∧
    r1.failed_sheets = r2.failed_sheets ∧
    r1.success = r2.success := by
  rw [sync_folder_sheets_ok env1 t fs h1, Except.ok.injEq] at hr1
  rw [sync_folder_sheets_ok env2 t fs h2, Except.ok.injEq] at hr2
  subst hr1
  subst hr2
  have hsynced : countSynced env1.sync_sheet fs =
      countSynced env2.sync_sheet fs := by
    unfold countSynced
    exact List.countP_congr (fun f hf => by rw [hsame f hf])
  have hfailed : countFailed env1.sync_sheet fs =
      countFailed env2.sync_sheet fs := by
    unfold countFailed
    exact List.countP_congr (fun f hf => by rw [hsame f hf])
  refine ⟨rfl, ?_, ?_, ?_⟩
  · rw [mkReport_synced_sheets, mkReport_synced_sheets, hsynced]
  · rw [mkReport_failed_sheets, mkReport_failed_sheets, hfailed]
  · rw [mkReport_success_eq, mkReport_success_eq, mkReport_failed_sheets,
      mkReport_failed_sheets, hfailed]

/-- Error message of the alternative demo run. -/
def quotaErr : String := "quota exceeded"

/-- Sync result of the alternative demo run. -/
def resAlt : SheetSyncResult := { total_rows_written := 7, sheets := [] }

/-- Alternative demo sync behaviour: same success and failure pattern as
the demo behaviour but with different payloads. -/
def demoSync2 : String → Except Exn SheetSyncResult := fun tk =>
  if tk == tokB then Except.error (Exn.other quotaErr)
  else Except.ok resAlt

/-- Alternative demo environment over the same folder listing. -/
def demoEnv2 : Env :=
  { get_sheets_in_folder := fun _ => Except.ok demoFiles,
    sync_sheet := demoSync2 }

/-- The report of the alternative demo run. -/
def demoReport2 : FolderSyncResponse := mkReport demoSync2 folderF1 demoFiles

/-- Witness for C9: the demo run and the alternative run agree on all
aggregate fields. -/
theorem C9_witness :
    demoReport.total_sheets = demoReport2.total_sheets ∧
    demoReport.synced_sheets = demoReport2.synced_sheets ∧
    demoReport.failed_sheets = demoReport2.failed_sheets ∧
    demoReport.success = demoReport2.success :=
  C9_stable_reaggregation demoEnv demoEnv2 folderF1 demoFiles
    demoReport demoReport2 rfl rfl (by decide) rfl rfl

/-- C10: any exception of a per-item sync call, an HTTPException included,
is recorded as a Failure outcome at the file's index and never aborts the
run; an exception of the listing call reaches the outer handlers, which
re-raise an HTTPException unchanged and wrap any other exception into a
single HTTP 500 failure. -/
theorem C10_exception_surface (env : Env) (t : String) :
    (∀ fs, env.get_sheets_in_folder t = Except.ok fs →
      ∃ r, sync_folder_sheets env t = Except.ok r ∧
        ∀ i : Nat, ∀ f, fs[i]? = some f → ∀ e,
          env.sync_sheet f.token = Except.error e →
          r.details[i]? = some (SyncItemOutcome.failure f.name f.token
            e.str)) ∧
    (∀ s d, env.get_sheets_in_folder t = Except.error (Exn.httpException s d) →
      sync_folder_sheets env t = Except.error (Exn.httpException s d)) ∧
    (∀ m, env.get_sheets_in_folder t = Except.error (Exn.other m) →
      sync_folder_sheets env t =
        Except.error (Exn.httpException 500 (folderSyncFailMsg ++ m))) := by
  refine ⟨?_, ?_, ?_⟩
  · intro fs hls
    refine ⟨mkReport env.sync_sheet t fs,
      sync_folder_sheets_ok env t fs hls, ?_⟩
    intro i f hf e he
    rw [mkReport_details_eq, List.getElem?_map _ fs i, hf]
    simp [syncItem, he]
  · intro s d hls
    simp [sync_folder_sheets, hls, wrapOuter]
  · intro m hls
    simp [sync_folder_sheets, hls, wrapOuter]

/-- Witness for C10: in the demo run the failing file B yields a recorded
Failure at index 1 while the run returns a report; a listing failure that
is an HTTPException is re-raised unchanged; a plain listing failure is
wrapped into an HTTP 500 failure. -/
theorem C10_witness :
    (∃ r, sync_folder_sheets demoEnv folderF1 = Except.ok r ∧
      r.details[1]? = some (SyncItemOutcome.failure nameB tokB rateLimited)) ∧
    sync_folder_sheets httpFailEnv folderF1 =
      Except.error (Exn.httpException 404 notFoundMsg) ∧
    sync_folder_sheets failEnv folderF1 =
      Except.error (Exn.httpException 500 (folderSyncFailMsg ++ notFoundMsg)) := by
  refine ⟨?_, ?_, ?_⟩
  · obtain ⟨hA, hB, hC⟩ := C10_exception_surface demoEnv folderF1
    obtain ⟨r, hr, hall⟩ := hA demoFiles rfl
    exact ⟨r, hr, hall 1 fileB rfl (Exn.other rateLimited) rfl⟩
  · exact (C10_exception_surface httpFailEnv folderF1).2.1 404 notFoundMsg rfl
  · exact (C10_exception_surface failEnv folderF1).2.2 notFoundMsg rfl
